import Mathlib

/-!
# Verification of the wiux MQTT client core

Shallow embedding of the wiux sources (`src/types/mod.rs`, `src/types/header.rs`,
`src/types/payload.rs`, `src/types/error.rs`, `src/topic_matcher.rs`, `src/client.rs`)
and proofs about the spec's claims.

Modelling conventions:
* Rust strings are modelled as `List Char`; all inputs of interest are ASCII, so the
  Rust byte length `s.len()` coincides with the character count.
* Machine integers (`u8`, `u16`) are modelled as `Nat` with explicit `% 256` / `% 65536`
  at the points where the Rust code casts or truncates.
* Fallible or panicking code paths return `Option` (`none` = Rust panic) or
  `Except Error` mirroring `crate::types::error::Result`.
-/

namespace Wiux

/-- Errors, from `src/types/error.rs` (`InvalidTopicMatcherError` carries the filter). -/
inductive Error where
  | RequestError
  | SubscriptionAckhowledgeFailureError
  | InvalidTopicMatcherError (filter : List Char)
  | PublicationError
  | ConnectionError
  | Default
deriving DecidableEq, Repr

/-- `Byte` from `src/types/mod.rs`: an array of 8 bit cells. -/
structure Byte where
  bits : List Nat
deriving DecidableEq, Repr

/-- The binary digits of `n`, most significant first, computed with explicit fuel
(8 suffices for `n < 256`); mirrors what `format!("{:b}", val)` produces, one list
entry per character of the formatted string. -/
def binDigitsAux : Nat → Nat → List Nat
  | 0, _ => []
  | fuel + 1, n => if n = 0 then [] else binDigitsAux fuel (n / 2) ++ [n % 2]

/-- The characters of `format!("{:b}", val)` as 0/1 digits (so `0` prints as `"0"`). -/
def binDigits (n : Nat) : List Nat :=
  if n = 0 then [0] else binDigitsAux 8 n

/-- `Byte::new` from `src/types/mod.rs`: writes the characters of the binary string of
`val` (no leading zeros) into `bits[0], bits[1], ...`, leaving the remaining cells 0.
Note the printed string is most-significant-digit first. -/
def Byte.new (val : Nat) : Byte :=
  let ds := binDigits (val % 256)
  ⟨ds ++ List.replicate (8 - ds.length) 0⟩

/-- `Byte::to_u8` from `src/types/mod.rs`: `res += bits[i] * 2^i`, i.e. it reads the
cell at index `i` with weight `2^i` (least-significant first). -/
def Byte.to_u8 (b : Byte) : Nat :=
  (b.bits.zipWith (fun bit w => bit * w) [1, 2, 4, 8, 16, 32, 64, 128]).sum

/-- `Integer` from `src/types/mod.rs`: two `Byte`s, most significant first. -/
structure Integer where
  msb : Byte
  lsb : Byte
deriving DecidableEq, Repr

/-- `Integer::new` from `src/types/mod.rs`: `val.to_be_bytes()` then `Byte::new` each. -/
def Integer.new (val : Nat) : Integer :=
  ⟨Byte.new (val % 65536 / 256), Byte.new (val % 256)⟩

/-- `Integer::to_bytes` from `src/types/mod.rs`. -/
def Integer.to_bytes (i : Integer) : List Nat :=
  [i.msb.to_u8, i.lsb.to_u8]

/-- `Integer::to_u16` from `src/types/mod.rs`: `(msb as u16) << 8 | lsb`. -/
def Integer.to_u16 (i : Integer) : Nat :=
  Nat.lor (i.msb.to_u8 <<< 8) i.lsb.to_u8

/-- `EncodedString` from `src/types/mod.rs` (value is the UTF-8 byte content,
modelled as ASCII characters). -/
structure EncodedString where
  len : Integer
  value : List Char
deriving DecidableEq, Repr

/-- `EncodedString::new` from `src/types/mod.rs`: `len` is `s.len() as u16`. -/
def EncodedString.new (s : List Char) : EncodedString :=
  ⟨Integer.new s.length, s⟩

/-- `EncodedString::to_bytes` from `src/types/mod.rs`. -/
def EncodedString.to_bytes (s : EncodedString) : List Nat :=
  s.len.to_bytes ++ s.value.map Char.toNat

/-- `QOS` from `src/types/mod.rs`. -/
inductive QOS where
  | Zero
  | One
  | Two
deriving DecidableEq, Repr

/-- `std::result::Result` as used through `src/types/error.rs` (`Result<T> =
Result<T, Error>`). -/
inductive RResult (α : Type) where
  | ok (val : α)
  | error (err : Error)
deriving DecidableEq, Repr

/-- `Connect` variable-header struct from `src/types/header.rs`. -/
structure ConnectVH where
  protocol_name : EncodedString
  protocol_level : Byte
  connect_flags : Byte
  keep_alive : Integer
deriving DecidableEq, Repr

/-- `FixedHeader` from `src/types/header.rs`; `publish` carries (dup, qos, retain). -/
inductive FixedHeader where
  | connect
  | connack
  | publish (dup : Bool) (qos : QOS) (retain : Bool)
  | puback
  | pubrec
  | pubrel
  | pubcomp
  | subscribe
  | suback
  | unsubscribe
  | unsuback
  | pingreq
  | pingresp
  | disconnect
deriving DecidableEq, Repr

/-- `FixedHeader::to_bytes` from `src/types/header.rs`: pushes the type byte for the
outbound kinds only (the catch-all arm pushes nothing), then always pushes a 0
placeholder for the remaining-length byte. -/
def FixedHeader.to_bytes : FixedHeader → List Nat
  | .connect => [16, 0]
  | .publish dup qos retain =>
      let b1 := 32 + 16
      let b2 := if dup then b1 + 8 else b1
      let b3 := if retain then b2 + 1 else b2
      let b4 := match qos with
        | .One => b3 + 2
        | .Two => b3 + 4
        | .Zero => b3
      [b4, 0]
  | .subscribe => [128 + 2, 0]
  | .unsubscribe => [128 + 32 + 2, 0]
  | .pingreq => [128 + 64, 0]
  | .disconnect => [64 + 32, 0]
  | _ => [0]

/-- `VariableHeader` from `src/types/header.rs`; the per-type wrapper structs
(`PublishAcknowledge`, `PublishRecieved`, ...) each hold a single `packet_id`,
inlined here as the constructor argument. -/
inductive VariableHeader where
  | connect (h : ConnectVH)
  | conack (connect_acknowledge_flags connect_return_code : Byte)
  | publish (topic_name : EncodedString) (packet_id : Integer)
  | puback (packet_id : Integer)
  | pubrec (packet_id : Integer)
  | pubrel (packet_id : Integer)
  | pubcomp (packet_id : Integer)
  | subscribe (packet_id : Integer)
  | suback (packet_id : Integer)
  | unsubscribe (packet_id : Integer)
  | unsuback (packet_id : Integer)
  | default
deriving DecidableEq, Repr

/-- `VariableHeader::to_bytes` from `src/types/header.rs` (catch-all arm yields
no bytes). -/
def VariableHeader.to_bytes : VariableHeader → List Nat
  | .connect h =>
      h.protocol_name.to_bytes ++ [h.protocol_level.to_u8, h.connect_flags.to_u8]
        ++ h.keep_alive.to_bytes
  | .publish topic_name packet_id => topic_name.to_bytes ++ packet_id.to_bytes
  | .subscribe packet_id => packet_id.to_bytes
  | .unsubscribe packet_id => packet_id.to_bytes
  | _ => []

/-- `Header` from `src/types/header.rs`; the Rust field is named `variable`, which is
a reserved word in Lean, so it is rendered `variableHeader` here. -/
structure Header where
  fixed : FixedHeader
  variableHeader : Option VariableHeader
deriving DecidableEq, Repr

/-- `Header::to_bytes` from `src/types/header.rs`. -/
def Header.to_bytes (h : Header) : List Nat :=
  h.fixed.to_bytes ++ (match h.variableHeader with
    | some v => v.to_bytes
    | none => [])

/-- `ConnectPayload` from `src/types/payload.rs`. -/
structure ConnectPayload where
  client_id : EncodedString
  will_topic : Option EncodedString
  will_message : Option EncodedString
  username : Option EncodedString
  password : Option EncodedString
deriving DecidableEq, Repr

/-- `ConnectPayload::new` from `src/types/payload.rs`. -/
def ConnectPayload.new (client_id : List Char) (will_topic will_message : Option (List Char))
    (username password : Option (List Char)) : ConnectPayload :=
  ⟨EncodedString.new client_id, will_topic.map EncodedString.new,
    will_message.map EncodedString.new, username.map EncodedString.new,
    password.map EncodedString.new⟩

/-- `ConnectPayload::to_bytes` from `src/types/payload.rs`. -/
def ConnectPayload.to_bytes (p : ConnectPayload) : List Nat :=
  p.client_id.to_bytes
    ++ (match p.will_topic with | some v => v.to_bytes | none => [])
    ++ (match p.will_message with | some v => v.to_bytes | none => [])
    ++ (match p.username with | some v => v.to_bytes | none => [])
    ++ (match p.password with | some v => v.to_bytes | none => [])

/-- `SubscribePayload` from `src/types/payload.rs`. -/
structure SubscribePayload where
  topic_filter : EncodedString
  qos : QOS
deriving DecidableEq, Repr

/-- `SubscribePayload::to_bytes` from `src/types/payload.rs`. -/
def SubscribePayload.to_bytes (p : SubscribePayload) : List Nat :=
  p.topic_filter.to_bytes ++ [match p.qos with | .One => 1 | .Two => 2 | .Zero => 0]

/-- `Payloads` from `src/types/payload.rs`; SUBACK entries are `Result<QOS>`. -/
inductive Payloads where
  | connect (p : ConnectPayload)
  | publish (p : List Nat)
  | subscribe (p : List SubscribePayload)
  | subAcknowledge (p : List (RResult QOS))
  | unsubscribe (p : List EncodedString)
  | default
deriving DecidableEq, Repr

/-- `Payloads::to_bytes` from `src/types/payload.rs`: the `SubAcknowledge` and
`Default` arms fall into the catch-all and contribute no bytes. -/
def Payloads.to_bytes : Payloads → List Nat
  | .connect p => p.to_bytes
  | .publish p => p
  | .subscribe p => (p.map SubscribePayload.to_bytes).flatten
  | .unsubscribe p => (p.map EncodedString.to_bytes).flatten
  | _ => []

/-- `Payload` from `src/types/payload.rs`. -/
structure Payload where
  content : Option Payloads
deriving DecidableEq, Repr

/-- `Payload::to_bytes` from `src/types/payload.rs`. -/
def Payload.to_bytes (p : Payload) : List Nat :=
  match p.content with
  | some c => c.to_bytes
  | none => []

/-- `ControlPacket` from `src/types/mod.rs`. -/
structure ControlPacket where
  header : Header
  payload : Payload
deriving DecidableEq, Repr

/-- `ControlPacket::to_bytes` from `src/types/mod.rs`: concatenates header and payload
bytes, then overwrites index 1 with `res.len() as u8`. Indexing `res[1]` panics when
the vector has fewer than two bytes, hence the `Option`. -/
def ControlPacket.to_bytes (p : ControlPacket) : Option (List Nat) :=
  let res := p.header.to_bytes ++ p.payload.to_bytes
  if 1 < res.length then some (res.set 1 (res.length % 256)) else none

/-- `ControlPacket::from_bytes` from `src/types/mod.rs`, acting on the front of the
byte queue. Outer `none` models a panic (an `expect` on a missing byte, or an
out-of-range `buf` index); `some none` models the function returning `None` (empty
queue reaching the `?`, or an unknown packet type). -/
def ControlPacket.from_bytes (bytes : List Nat) : Option (Option ControlPacket) :=
  match bytes with
  | [] => some none
  | packet_type :: rest =>
    match rest with
    | [] => none
    | len :: rest2 =>
      if rest2.length < len then none
      else
        let buf := rest2.take len
        if packet_type = 32 then
          match buf.get? 0, buf.get? 1 with
          | some b0, some b1 =>
              some (some ⟨⟨.connack, some (.conack (Byte.new b0) (Byte.new b1))⟩, ⟨none⟩⟩)
          | _, _ => none
        else if packet_type = 64 then
          match buf.get? 0, buf.get? 1 with
          | some b0, some b1 =>
              some (some ⟨⟨.puback, some (.puback ⟨Byte.new b0, Byte.new b1⟩)⟩, ⟨none⟩⟩)
          | _, _ => none
        else if packet_type = 80 then
          match buf.get? 0, buf.get? 1 with
          | some b0, some b1 =>
              some (some ⟨⟨.pubrec, some (.pubrec ⟨Byte.new b0, Byte.new b1⟩)⟩, ⟨none⟩⟩)
          | _, _ => none
        else if packet_type = 98 then
          match buf.get? 0, buf.get? 1 with
          | some b0, some b1 =>
              some (some ⟨⟨.pubrel, some (.pubrel ⟨Byte.new b0, Byte.new b1⟩)⟩, ⟨none⟩⟩)
          | _, _ => none
        else if packet_type = 112 then
          match buf.get? 0, buf.get? 1 with
          | some b0, some b1 =>
              some (some ⟨⟨.pubcomp, some (.pubcomp ⟨Byte.new b0, Byte.new b1⟩)⟩, ⟨none⟩⟩)
          | _, _ => none
        else if packet_type = 144 then
          match buf.get? 0, buf.get? 1 with
          | some b0, some b1 =>
              some (some ⟨⟨.suback, some (.suback ⟨Byte.new b0, Byte.new b1⟩)⟩,
                ⟨some (.subAcknowledge ((buf.drop 2).map (fun b =>
                  if b = 0 then RResult.ok QOS.Zero
                  else if b = 1 then RResult.ok QOS.One
                  else if b = 2 then RResult.ok QOS.Two
                  else RResult.error Error.SubscriptionAckhowledgeFailureError)))⟩⟩)
          | _, _ => none
        else if packet_type = 176 then
          match buf.get? 0, buf.get? 1 with
          | some b0, some b1 =>
              some (some ⟨⟨.unsuback, some (.unsuback ⟨Byte.new b0, Byte.new b1⟩)⟩, ⟨none⟩⟩)
          | _, _ => none
        else if packet_type = 208 then
          some (some ⟨⟨.pingresp, none⟩, ⟨none⟩⟩)
        else
          some none

/-- Rust `str::split('/')`: yields the (possibly empty) fragments between slashes;
`""` splits to `[""]` and a trailing slash yields a trailing empty fragment. -/
def splitLevels : List Char → List (List Char)
  | [] => [[]]
  | c :: rest =>
    if c = '/' then [] :: splitLevels rest
    else
      match splitLevels rest with
      | [] => [[c]]
      | l :: ls => (c :: l) :: ls

/-- The per-level closure inside `TopicMatcher::new` (`src/topic_matcher.rs`): a level
maps to `false` when it contains a wildcard character and has more than one byte. -/
def levelOk (v : List Char) : Bool :=
  !((v.contains '#' || v.contains '+') && v.length > 1)

/-- `TopicMatcher::new` from `src/topic_matcher.rs`: rejects a filter that contains
a `#` but does not end with the character `#`, or whose split levels are not all
`levelOk`; otherwise stores the filter. -/
def TopicMatcher.new (topic_filter : List Char) : RResult (List Char) :=
  if topic_filter.contains '#' && !(topic_filter.getLast? = some '#') then
    RResult.error (Error.InvalidTopicMatcherError topic_filter)
  else if (splitLevels topic_filter).all levelOk then
    RResult.ok topic_filter
  else
    RResult.error (Error.InvalidTopicMatcherError topic_filter)

/-- The inner `while` of the `'+'` arm in `TopicMatcher::matches`: advance `topic_p`
past the current topic level, stopping at the next `'/'` or the end of the topic. -/
def skipLevel (topic : List Char) (topic_p : Nat) : Nat :=
  topic_p + ((topic.drop topic_p).takeWhile (fun c => !(c = '/'))).length

/-- The `while sub.get(sub_p).is_some()` loop of `TopicMatcher::matches`
(`src/topic_matcher.rs`), one fuel unit per iteration (each iteration that does not
return increments `sub_p`, so `sub.length + 1` fuel always suffices). `none` models
the panic on `topic[topic_p]` when `topic_p` is out of range (the Rust code indexes
before testing `topic.get(topic_p).is_none()`). -/
def matchGo (sub topic : List Char) : Nat → Nat → Nat → Nat → Option Bool
  | 0, _, _, _ => none
  | fuel + 1, sub_p, topic_p, spos =>
    if hsub : sub_p < sub.length then
      if htop : topic_p < topic.length then
        let sc := sub.get ⟨sub_p, hsub⟩
        let tc := topic.get ⟨topic_p, htop⟩
        if sc ≠ tc then
          if sc = '+' then
            let topic_q := skipLevel topic topic_p
            if topic.length ≤ topic_q ∧ sub.length ≤ sub_p + 1 then some true
            else matchGo sub topic fuel (sub_p + 1) topic_q (spos + 1)
          else if sc = '#' then some true
          else some false
        else
          if topic.length ≤ topic_p + 1 ∧ sub.get? (sub_p + 1) = some '/' ∧
              sub.get? (sub_p + 2) = some '#' ∧ sub.length ≤ sub_p + 3 then some true
          else if sub.length ≤ sub_p + 1 ∧ topic.length ≤ topic_p + 1 then some true
          else if topic.length ≤ topic_p + 1 then
            if sub.get? (sub_p + 1) = some '+' ∧ sub.length ≤ sub_p + 2 then some true
            else matchGo sub topic fuel (sub_p + 1) (topic_p + 1) (spos + 1)
          else matchGo sub topic fuel (sub_p + 1) (topic_p + 1) (spos + 1)
      else none
    else
      some false

/-- Run the matching walk of `TopicMatcher::matches` on a filter and topic. -/
def matchRun (sub topic : List Char) : Option Bool :=
  matchGo sub topic (sub.length + 1) 0 0 0

/-- `TopicMatcher::matches` from `src/topic_matcher.rs`: packets whose variable
header is not a `Publish` variable header fall to the catch-all and yield `false`;
for a publish packet the filter is walked against the topic characters. -/
def TopicMatcher.matches (topic_filter : List Char) (msg : ControlPacket) : Option Bool :=
  match msg.header.variableHeader with
  | some (.publish topic_name _) => matchRun topic_filter topic_name.value
  | _ => some false

/-- A PUBLISH `ControlPacket` shaped as in the repository's tests: QoS 0, no flags,
packet id 0, empty payload. -/
def publishMsg (topic : List Char) : ControlPacket :=
  ⟨⟨.publish false QOS.Zero false,
    some (.publish (EncodedString.new topic) (Integer.new 0))⟩, ⟨none⟩⟩

/-- `Will` from `src/types/mod.rs`. -/
structure Will where
  topic : List Char
  message : List Char
  qos : QOS
  retain : Bool
deriving DecidableEq, Repr

/-- `ServerConnection` from `src/types/mod.rs`: host, port, and the credentials as
stored by `Client::new` (already wrapped in `EncodedString`). -/
structure ServerConnection where
  host : List Char
  port : Nat
  username : Option EncodedString
  password : Option EncodedString
deriving DecidableEq, Repr

/-- `Client` from `src/client.rs`, without the raw `tcp_stream` handle (transport
activity is modelled separately as a list of `NetEffect`s). -/
structure Client where
  client_id : List Char
  server_connection : ServerConnection
  clean_session : Bool
  will : Option Will
  intent_disconnect : Bool
deriving DecidableEq, Repr

/-- One observable action on the transport. `write none` records an attempt to send
the serialization of a packet whose `to_bytes` panics. -/
inductive NetEffect where
  | openConn (host : List Char) (port : Nat)
  | write (bytes : Option (List Nat))
deriving DecidableEq, Repr

/-- The connect-flags computation that appears verbatim (up to field paths) in both
`Client::new` and `Client::reconnect` (`src/client.rs`): username presence sets bit 7,
password-and-username bit 6, clean-session bit 1, and a will sets retain/QoS/will-flag
bits. Generic in the credential payload type since only `is_some` is consulted. -/
def connectFlagsOf {α β : Type} (username : Option α) (pass : Option β)
    (clean_session : Bool) (will : Option Will) : Nat :=
  let f1 := if username.isSome then 128 else 0
  let f2 := if pass.isSome && username.isSome then f1 + 64 else f1
  let f3 := if clean_session then f2 + 2 else f2
  match will with
  | some w =>
    let will_qos_flags : Nat × Nat := match w.qos with
      | .One => (0, 1)
      | .Two => (1, 0)
      | .Zero => (0, 0)
    let f4 := if w.retain then f3 + 32 else f3
    let f5 := if will_qos_flags.1 = 1 then f4 + 16 else f4
    let f6 := if will_qos_flags.2 = 1 then f5 + 8 else f5
    f6 + 4
  | none => f3

/-- The CONNECT `ControlPacket` that `Client::new` (`src/client.rs`) builds and
transmits: protocol name "MQTT", level 4, computed connect flags, keep-alive 0, and a
connect payload with the client id, optional will topic/message, and credentials. -/
def connectPacketOf (client_id : List Char) (will : Option Will) (clean_session : Bool)
    (username pass : Option (List Char)) : ControlPacket :=
  ⟨⟨.connect, some (.connect
      ⟨EncodedString.new "MQTT".toList, Byte.new 4,
        Byte.new (connectFlagsOf username pass clean_session will), Integer.new 0⟩)⟩,
    ⟨some (.connect (ConnectPayload.new client_id (will.map (fun w => w.topic))
      (will.map (fun w => w.message)) username pass))⟩⟩

/-- `Client::new` from `src/client.rs`, on the path where the TCP connect and the
CONNECT write both succeed: returns the constructed client and the transport
activity (open the stored host/port, then write the CONNECT packet bytes). -/
def Client.new (client_id : List Char) (will : Option Will) (clean_session : Bool)
    (host : List Char) (port : Nat) (username pass : Option (List Char)) :
    Client × List NetEffect :=
  (⟨client_id,
    ⟨host, port, username.map EncodedString.new, pass.map EncodedString.new⟩,
    clean_session, will, false⟩,
   [NetEffect.openConn host port,
    NetEffect.write (connectPacketOf client_id will clean_session username pass).to_bytes])

/-- The CONNECT `ControlPacket` that `Client::reconnect` (`src/client.rs`) rebuilds
from the stored state; the credentials handed to `ConnectPayload::new` are the byte
contents of the stored `EncodedString`s. -/
def Client.reconnectPacket (c : Client) : ControlPacket :=
  ⟨⟨.connect, some (.connect
      ⟨EncodedString.new "MQTT".toList, Byte.new 4,
        Byte.new (connectFlagsOf c.server_connection.username c.server_connection.password
          c.clean_session c.will), Integer.new 0⟩)⟩,
    ⟨some (.connect (ConnectPayload.new c.client_id (c.will.map (fun w => w.topic))
      (c.will.map (fun w => w.message))
      (c.server_connection.username.map (fun u => u.value))
      (c.server_connection.password.map (fun u => u.value))))⟩⟩

/-- `Client::reconnect` from `src/client.rs`: takes `&self`, writes the rebuilt
CONNECT packet on the client's existing `tcp_stream`, and performs no other
transport or state action (in particular it opens no connection). -/
def Client.reconnect (c : Client) : List NetEffect :=
  [NetEffect.write c.reconnectPacket.to_bytes]

/-- The DISCONNECT packet built inside `Client::disconnect` (`src/client.rs`). -/
def disconnectPacket : ControlPacket :=
  ⟨⟨.disconnect, none⟩, ⟨none⟩⟩

/-- The observable outcome of one `Client::disconnect` call: the value of
`intent_disconnect` at the moment the DISCONNECT write is issued, the bytes written,
the final client state, and the returned result. -/
structure DisconnectOutcome where
  flagWhenWriting : Bool
  bytesWritten : Option (List Nat)
  final : Client
  result : RResult Unit
deriving DecidableEq, Repr

/-- `Client::disconnect` from `src/client.rs`, with the success of the transport
write supplied as `writeOk`: sets `intent_disconnect` to `true`, writes the
DISCONNECT packet, and on a write error resets the flag to `false` and returns
`RequestError`. -/
def Client.disconnect (c : Client) (writeOk : Bool) : DisconnectOutcome :=
  let c1 : Client := { c with intent_disconnect := true }
  if writeOk then
    ⟨c1.intent_disconnect, disconnectPacket.to_bytes, c1, RResult.ok ()⟩
  else
    ⟨c1.intent_disconnect, disconnectPacket.to_bytes,
      { c1 with intent_disconnect := false }, RResult.error Error.RequestError⟩

/-- One callback invocation as performed by `Client::do_loop` (`src/client.rs`);
packet ids and return codes are the `i32` values passed to the callbacks. -/
inductive CallbackEvent where
  | connectEv (code : Nat)
  | publishEv (packet_id : Nat)
  | subscribeEv (packet_id : Nat)
  | unsubscribeEv (packet_id : Nat)
  | messageEv (msg : ControlPacket)
deriving DecidableEq, Repr

/-- The routing step of `Client::do_loop` (`src/client.rs`) for one decoded packet,
with every callback registered: the list of callback invocations it performs.
`none` models the `expect` panic when the variable header is absent; a `let ... else
continue` on a variant that does not match produces no invocation. Note the `Pubrel`
arm destructures the `Pubrec` variable-header variant, exactly as the source does. -/
def dispatchPacket (resp : ControlPacket) : Option (List CallbackEvent) :=
  match resp.header.fixed with
  | .unsuback =>
    match resp.header.variableHeader with
    | none => none
    | some (.unsuback pid) => some [CallbackEvent.unsubscribeEv pid.to_u16]
    | some _ => some []
  | .suback =>
    match resp.header.variableHeader with
    | none => none
    | some (.suback pid) => some [CallbackEvent.subscribeEv pid.to_u16]
    | some _ => some []
  | .pubcomp =>
    match resp.header.variableHeader with
    | none => none
    | some (.pubcomp pid) => some [CallbackEvent.publishEv pid.to_u16]
    | some _ => some []
  | .pubrel =>
    match resp.header.variableHeader with
    | none => none
    | some (.pubrec pid) => some [CallbackEvent.publishEv pid.to_u16]
    | some _ => some []
  | .pubrec =>
    match resp.header.variableHeader with
    | none => none
    | some (.pubrec pid) => some [CallbackEvent.publishEv pid.to_u16]
    | some _ => some []
  | .puback =>
    match resp.header.variableHeader with
    | none => none
    | some (.puback pid) => some [CallbackEvent.publishEv pid.to_u16]
    | some _ => some []
  | .connack =>
    match resp.header.variableHeader with
    | none => none
    | some (.conack _ ret) => some [CallbackEvent.connectEv ret.to_u8]
    | some _ => some []
  | .publish _ _ _ => some [CallbackEvent.messageEv resp]
  | .pingresp => some []
  | _ => some []

/-- The CONNACK packet that `ControlPacket::from_bytes` produces from the wire frame
`[32, 2, 0, 0]`. -/
def connackPkt : ControlPacket :=
  ⟨⟨.connack, some (.conack (Byte.new 0) (Byte.new 0))⟩, ⟨none⟩⟩

/-- The PUBACK packet decoded from `[64, 2, 0, 1]` (packet id 1). -/
def pubackPkt : ControlPacket :=
  ⟨⟨.puback, some (.puback ⟨Byte.new 0, Byte.new 1⟩)⟩, ⟨none⟩⟩

/-- The PUBREC packet decoded from `[80, 2, 0, 1]` (packet id 1). -/
def pubrecPkt : ControlPacket :=
  ⟨⟨.pubrec, some (.pubrec ⟨Byte.new 0, Byte.new 1⟩)⟩, ⟨none⟩⟩

/-- The PUBREL packet decoded from `[98, 2, 0, 1]` (packet id 1). -/
def pubrelPkt : ControlPacket :=
  ⟨⟨.pubrel, some (.pubrel ⟨Byte.new 0, Byte.new 1⟩)⟩, ⟨none⟩⟩

/-- The PUBCOMP packet decoded from `[112, 2, 0, 1]` (packet id 1). -/
def pubcompPkt : ControlPacket :=
  ⟨⟨.pubcomp, some (.pubcomp ⟨Byte.new 0, Byte.new 1⟩)⟩, ⟨none⟩⟩

/-- The SUBACK packet decoded from `[144, 3, 0, 1, 0]` (packet id 1, one granted
QoS-0 entry). -/
def subackPkt : ControlPacket :=
  ⟨⟨.suback, some (.suback ⟨Byte.new 0, Byte.new 1⟩)⟩,
    ⟨some (.subAcknowledge [RResult.ok QOS.Zero])⟩⟩

/-- The UNSUBACK packet decoded from `[176, 2, 0, 1]` (packet id 1). -/
def unsubackPkt : ControlPacket :=
  ⟨⟨.unsuback, some (.unsuback ⟨Byte.new 0, Byte.new 1⟩)⟩, ⟨none⟩⟩

/-- The PINGRESP packet decoded from `[208, 0]`. -/
def pingrespPkt : ControlPacket :=
  ⟨⟨.pingresp, none⟩, ⟨none⟩⟩

/-- Whether an optional variable header is a `Publish` variable header. -/
def isPublishVariableHeader : Option VariableHeader → Bool
  | some (.publish _ _) => true
  | _ => false

/-- A valid MQTT topic level: no separator and no wildcard characters (the MQTT
protocol forbids `+` and `#` inside topic names). -/
def validTopicLevel (l : List Char) : Prop :=
  ('/' ∉ l) ∧ ('#' ∉ l) ∧ ('+' ∉ l)

instance (l : List Char) : Decidable (validTopicLevel l) := by
  unfold validTopicLevel
  infer_instance

/-- Join topic levels with `'/'` separators (the inverse of splitting a topic on
`'/'`). -/
def joinLevels : List (List Char) → List Char
  | [] => []
  | [l] => l
  | l :: ls => l ++ '/' :: joinLevels ls

/-- A sample client: id "c1", no will, clean session, host "h", port 1883, no
credentials. -/
def clientW : Client :=
  ⟨['c', '1'], ⟨['h'], 1883, none, none⟩, true, none, false⟩

end Wiux

namespace Wiux

example : (Byte.new 2).to_u8 = 1 := by decide

example : (Integer.new 258).to_bytes = [1, 1] := by decide

example : ControlPacket.from_bytes [64, 2, 0, 1] =
    some (some ⟨⟨.puback, some (.puback ⟨Byte.new 0, Byte.new 1⟩)⟩, ⟨none⟩⟩) := by decide

example : ControlPacket.to_bytes ⟨⟨.disconnect, none⟩, ⟨none⟩⟩ = some [96, 2] := by decide

example : ControlPacket.to_bytes ⟨⟨.pingresp, none⟩, ⟨none⟩⟩ = none := by decide

/-! Sanity checks mirroring the unit tests at the bottom of `src/topic_matcher.rs`. -/

example : TopicMatcher.matches "some/#/another".toList (publishMsg "some/one/another".toList) =
    some true := by decide

example :
    TopicMatcher.matches "some/#/another".toList (publishMsg "some/one/two/another".toList) =
    some true := by decide

example :
    TopicMatcher.matches "some/+/another".toList (publishMsg "some/one/two/another".toList) =
    some false := by decide

example : TopicMatcher.matches "some/+/another".toList (publishMsg "some/one/another".toList) =
    some true := by decide

example : TopicMatcher.matches "some/#".toList (publishMsg "some/one/another".toList) =
    some true := by decide

example : TopicMatcher.matches "one/some/#".toList (publishMsg "one/some".toList) =
    some true := by decide

example : TopicMatcher.matches "one/+/some/#".toList (publishMsg "one/two/some".toList) =
    some true := by decide

example :
    TopicMatcher.matches "one/+/some/#".toList
      (publishMsg "one/two/some/another/twonother".toList) = some true := by decide

example :
    TopicMatcher.matches "one/+/some/#".toList
      (publishMsg "one/two/three/some/another".toList) = some false := by decide

/-- Claim C1: the claim states that for every 16-bit `v`, `Integer::new(v)` serializes
to the big-endian bytes `[v >> 8, v & 0xFF]` and `to_u16` recovers `v`. The code fails
this already at `v = 2`: `Byte::new` stores the digits of the zero-padding-free binary
string most-significant first while `to_u8` reads the cells least-significant first,
so the bytes come out `[0, 1]` (not `[0, 2]`) and `to_u16` returns `1`. -/
theorem integer_wire_form_fails_at_two :
    (Integer.new 2).to_bytes = [0, 1] ∧ (Integer.new 2).to_u16 = 1 ∧
    ¬((Integer.new 2).to_bytes = [2 >>> 8, 2 &&& 255] ∧ (Integer.new 2).to_u16 = 2) := by
  decide

/-- Claim C2: the claim states that the second byte of `ControlPacket::to_bytes`
output equals the number of bytes that follow it. The code instead writes
`res.len() as u8`, the length of the whole output including the two fixed-header
bytes: the serialized DISCONNECT packet is `[96, 2]`, whose remaining-length byte
is `2` although `0` bytes follow it. -/
theorem remaining_length_byte_counts_whole_packet :
    ControlPacket.to_bytes disconnectPacket = some [96, 2] ∧
    [96, 2].get? 1 = some 2 ∧ ([96, 2].drop 2).length = 0 ∧ (2 : Nat) ≠ 0 := by
  decide

/-- Claim C3: the claim states that CONNACK, PUBACK, PUBREC, PUBREL, PUBCOMP, SUBACK,
UNSUBACK and PINGRESP packets round-trip through `to_bytes` then `from_bytes`. In the
code `FixedHeader::to_bytes` emits no type byte for any of these kinds (its catch-all
arm), and their variable headers and SUBACK payload also serialize to nothing, so
`ControlPacket::to_bytes` builds a vector shorter than two bytes and panics on
`res[1]` (modelled as `none`): serialization fails for each packet `from_bytes`
produces, and no round trip exists. -/
theorem inbound_packets_fail_to_serialize :
    (ControlPacket.from_bytes [32, 2, 0, 0] = some (some connackPkt) ∧
      connackPkt.to_bytes = none) ∧
    (ControlPacket.from_bytes [64, 2, 0, 1] = some (some pubackPkt) ∧
      pubackPkt.to_bytes = none) ∧
    (ControlPacket.from_bytes [80, 2, 0, 1] = some (some pubrecPkt) ∧
      pubrecPkt.to_bytes = none) ∧
    (ControlPacket.from_bytes [98, 2, 0, 1] = some (some pubrelPkt) ∧
      pubrelPkt.to_bytes = none) ∧
    (ControlPacket.from_bytes [112, 2, 0, 1] = some (some pubcompPkt) ∧
      pubcompPkt.to_bytes = none) ∧
    (ControlPacket.from_bytes [144, 3, 0, 1, 0] = some (some subackPkt) ∧
      subackPkt.to_bytes = none) ∧
    (ControlPacket.from_bytes [176, 2, 0, 1] = some (some unsubackPkt) ∧
      unsubackPkt.to_bytes = none) ∧
    (ControlPacket.from_bytes [208, 0] = some (some pingrespPkt) ∧
      pingrespPkt.to_bytes = none) := by
  decide

/-- Claim C5: a `'+'` filter level matches exactly one topic level:
`"some/+/another"` matches a PUBLISH packet with topic `"some/one/another"` and does
not match one with topic `"some/one/two/another"`. Both behaviors hold in
`TopicMatcher::matches`. -/
theorem plus_matches_exactly_one_level :
    TopicMatcher.matches "some/+/another".toList
      (publishMsg "some/one/another".toList) = some true ∧
    TopicMatcher.matches "some/+/another".toList
      (publishMsg "some/one/two/another".toList) = some false := by
  decide

/-- Claim C9: the claim states that PUBACK, PUBREC, PUBREL and PUBCOMP packets each
trigger the publish callback exactly once with the packet id. PUBACK, PUBREC and
PUBCOMP do, but the PUBREL dispatch arm in `Client::do_loop` destructures the
`Pubrec` variable-header variant from a packet whose variable header is `Pubrel`, so
its `let ... else continue` fails and the publish callback is never invoked for a
decoded PUBREL packet. -/
theorem pubrel_skips_publish_callback :
    (ControlPacket.from_bytes [98, 2, 0, 1] = some (some pubrelPkt) ∧
      dispatchPacket pubrelPkt = some []) ∧
    (ControlPacket.from_bytes [64, 2, 0, 1] = some (some pubackPkt) ∧
      dispatchPacket pubackPkt = some [CallbackEvent.publishEv 1]) ∧
    (ControlPacket.from_bytes [80, 2, 0, 1] = some (some pubrecPkt) ∧
      dispatchPacket pubrecPkt = some [CallbackEvent.publishEv 1]) ∧
    (ControlPacket.from_bytes [112, 2, 0, 1] = some (some pubcompPkt) ∧
      dispatchPacket pubcompPkt = some [CallbackEvent.publishEv 1]) := by
  decide

/-- Claim C10: `TopicMatcher::matches` returns `false` for every `ControlPacket`
whose variable header is not a `Publish` variable header, regardless of the topic
filter — such packets fall to the catch-all arm of the match. -/
theorem matches_false_on_non_publish (topic_filter : List Char) (p : ControlPacket)
    (h : isPublishVariableHeader p.header.variableHeader = false) :
    TopicMatcher.matches topic_filter p = some false := by
  unfold TopicMatcher.matches
  cases hv : p.header.variableHeader with
  | none => rfl
  | some v =>
    cases v <;> first | rfl | (rw [hv] at h; simp [isPublishVariableHeader] at h)

/-- Witness for C10: the PINGRESP packet has no `Publish` variable header and does
not match the filter `"a"`. -/
theorem matches_false_on_non_publish_witness :
    isPublishVariableHeader pingrespPkt.header.variableHeader = false ∧
    TopicMatcher.matches ['a'] pingrespPkt = some false :=
  ⟨by decide, matches_false_on_non_publish ['a'] pingrespPkt (by decide)⟩

/-- Claim C7: `Client::disconnect` sets `intent_disconnect` to `true` before writing
the DISCONNECT packet; on a successful write the flag stays `true` and `Ok` is
returned; on a failed write the flag is reset to `false` and `RequestError` is
returned, so a client whose flag was `false` is left unchanged. -/
theorem disconnect_flag_protocol (c : Client) (writeOk : Bool) :
    (c.disconnect writeOk).flagWhenWriting = true ∧
    (c.disconnect writeOk).bytesWritten = some [96, 2] ∧
    (writeOk = true → (c.disconnect writeOk).final.intent_disconnect = true ∧
      (c.disconnect writeOk).result = RResult.ok ()) ∧
    (writeOk = false → (c.disconnect writeOk).final.intent_disconnect = false ∧
      (c.disconnect writeOk).result = RResult.error Error.RequestError ∧
      (c.intent_disconnect = false → (c.disconnect writeOk).final = c)) := by
  cases writeOk <;> cases c <;>
    simp [Client.disconnect, disconnectPacket, ControlPacket.to_bytes, Header.to_bytes,
      FixedHeader.to_bytes, Payload.to_bytes]

/-- Witness for C7: at the sample client with a failing write, the state is restored
and `RequestError` is returned. -/
theorem disconnect_flag_protocol_witness :
    (clientW.disconnect false).final = clientW ∧
    (clientW.disconnect false).result = RResult.error Error.RequestError :=
  ⟨((disconnect_flag_protocol clientW false).2.2.2 rfl).2.2 rfl,
    ((disconnect_flag_protocol clientW false).2.2.2 rfl).2.1⟩

/-- Claim C8 (counterexample): the claim states that `Client::reconnect` opens a
fresh transport connection to the stored host and port. It does not: its transport
activity at a sample client contains no connection-open action at all (the rebuilt
CONNECT packet is written on the client's existing stream). -/
theorem reconnect_opens_no_connection :
    ¬ ∃ host port, NetEffect.openConn host port ∈
      (Client.new ['c', '1'] none true ['h'] 1883 none none).1.reconnect := by
  rintro ⟨host, port, hmem⟩
  simp [Client.new, Client.reconnect, List.mem_singleton] at hmem

/-- Claim C8 (amended): `Client::reconnect` transmits a CONNECT packet byte-identical
to the one the original `Client::new` sent (same client id, the credentials stored in
`ServerConnection`, the same will and clean-session flag), and that write is its only
transport action: it reuses the existing transport handle rather than opening a
fresh connection, and mutates nothing. -/
theorem reconnect_rewrites_identical_connect (client_id : List Char) (will : Option Will)
    (clean_session : Bool) (host : List Char) (port : Nat)
    (username pass : Option (List Char)) :
    (Client.new client_id will clean_session host port username pass).1.reconnect =
      [NetEffect.write (connectPacketOf client_id will clean_session username pass).to_bytes] := by
  cases username <;> cases pass <;>
    simp [Client.new, Client.reconnect, Client.reconnectPacket, connectPacketOf,
      connectFlagsOf, ConnectPayload.new, EncodedString.new]

/-- The Bool test guarding the first rejection in `TopicMatcher::new`, as a
proposition. -/
theorem firstCheck_iff (f : List Char) :
    (f.contains '#' && !decide (f.getLast? = some '#')) = true ↔
      ('#' ∈ f ∧ f.getLast? ≠ some '#') := by
  simp [List.elem_iff]

/-- `levelOk` fails exactly on a level holding a wildcard among more than one
character. -/
theorem levelOk_false_iff (v : List Char) :
    levelOk v = false ↔ (('#' ∈ v ∨ '+' ∈ v) ∧ 1 < v.length) := by
  simp [levelOk, List.elem_iff]
  tauto

/-- All levels pass `levelOk` exactly when no level holds a wildcard among more than
one character. -/
theorem all_levelOk_iff (f : List Char) :
    (splitLevels f).all levelOk = true ↔
      ∀ level ∈ splitLevels f, ¬(('#' ∈ level ∨ '+' ∈ level) ∧ 1 < level.length) := by
  rw [List.all_eq_true]
  constructor
  · intro h level hmem
    rw [← levelOk_false_iff]
    simp [h level hmem]
  · intro h level hmem
    have := h level hmem
    rw [← levelOk_false_iff] at this
    simp at this
    exact this

/-- Claim C4 (counterexample): the claim demands rejection of every filter with a
`'#'` in a non-final level, but `TopicMatcher::new` accepts `"#/#"`: its first level
(of two) is exactly `"#"`, yet validation only requires a filter containing `'#'` to
end with the character `'#'`. -/
theorem matcher_new_accepts_hash_slash_hash :
    TopicMatcher.new ['#', '/', '#'] = RResult.ok ['#', '/', '#'] ∧
    splitLevels ['#', '/', '#'] = [['#'], ['#']] ∧
    ('#' ∈ (['#'] : List Char)) := by
  decide

/-- Claim C4 (amended): `TopicMatcher::new` returns an `InvalidTopicMatcher` error
carrying the filter if and only if some level of the filter mixes a wildcard
character with other characters (holds a `'#'` or `'+'` and has more than one
character), or the filter contains a `'#'` and its last character is not `'#'`. The
claim's examples behave as it says: `"a/#/b"` and `"a/b+/c"` are rejected while
`"a/+/b"`, `"a/#"`, `"a/b/+"` and `"sport/tennis/+"` are accepted. -/
theorem matcher_new_error_iff :
    (∀ f : List Char,
      TopicMatcher.new f = RResult.error (Error.InvalidTopicMatcherError f) ↔
        ((∃ level ∈ splitLevels f, ('#' ∈ level ∨ '+' ∈ level) ∧ 1 < level.length) ∨
          ('#' ∈ f ∧ f.getLast? ≠ some '#'))) ∧
    TopicMatcher.new "a/#/b".toList =
      RResult.error (Error.InvalidTopicMatcherError "a/#/b".toList) ∧
    TopicMatcher.new "a/b+/c".toList =
      RResult.error (Error.InvalidTopicMatcherError "a/b+/c".toList) ∧
    TopicMatcher.new "a/+/b".toList = RResult.ok "a/+/b".toList ∧
    TopicMatcher.new "a/#".toList = RResult.ok "a/#".toList ∧
    TopicMatcher.new "a/b/+".toList = RResult.ok "a/b/+".toList ∧
    TopicMatcher.new "sport/tennis/+".toList = RResult.ok "sport/tennis/+".toList := by
  refine ⟨fun f => ?_, by decide, by decide, by decide, by decide, by decide, by decide⟩
  unfold TopicMatcher.new
  by_cases h1 : (f.contains '#' && !decide (f.getLast? = some '#')) = true
  · rw [if_pos h1]
    exact iff_of_true rfl (Or.inr ((firstCheck_iff f).mp h1))
  · rw [if_neg h1]
    by_cases h2 : (splitLevels f).all levelOk = true
    · rw [if_pos h2]
      apply iff_of_false (fun hcontra => RResult.noConfusion hcontra)
      rintro (⟨level, hmem, hbad⟩ | hright)
      · exact ((all_levelOk_iff f).mp h2) level hmem hbad
      · exact h1 ((firstCheck_iff f).mpr hright)
    · rw [if_neg h2]
      apply iff_of_true rfl
      left
      have hnall := (not_iff_not.mpr (all_levelOk_iff f)).mp h2
      push_neg at hnall
      obtain ⟨level, hmem, hbad⟩ := hnall
      exact ⟨level, hmem, hbad⟩

/-- One iteration of the matching walk on equal characters when the topic continues
past the next position: every early-exit test fails and both cursors advance. -/
theorem matchGo_step_eq (sub topic : List Char) (fuel sub_p topic_p spos : Nat)
    (hsub : sub_p < sub.length) (htop : topic_p < topic.length)
    (heq : sub.get ⟨sub_p, hsub⟩ = topic.get ⟨topic_p, htop⟩)
    (hlong : topic_p + 1 < topic.length) :
    matchGo sub topic (fuel + 1) sub_p topic_p spos =
      matchGo sub topic fuel (sub_p + 1) (topic_p + 1) (spos + 1) := by
  have h1 : ¬(topic.length ≤ topic_p + 1) := by omega
  have heqE : sub[sub_p] = topic[topic_p] := heq
  simp only [matchGo]
  rw [dif_pos hsub, dif_pos htop]
  simp [heqE, h1]

/-- One iteration of the matching walk on a mismatch at a `'#'` filter character:
the walk returns `true` at once. -/
theorem matchGo_step_hash (sub topic : List Char) (fuel sub_p topic_p spos : Nat)
    (hsub : sub_p < sub.length) (htop : topic_p < topic.length)
    (hne : sub.get ⟨sub_p, hsub⟩ ≠ topic.get ⟨topic_p, htop⟩)
    (hhash : sub.get ⟨sub_p, hsub⟩ = '#') :
    matchGo sub topic (fuel + 1) sub_p topic_p spos = some true := by
  have hhashE : sub[sub_p] = '#' := hhash
  have hneE : ¬(('#' : Char) = topic[topic_p]) := fun h => hne (hhash.trans h)
  have hph : ¬(('#' : Char) = '+') := by decide
  have hhh : (('#' : Char) = '#') := rfl
  simp only [matchGo]
  rw [dif_pos hsub, dif_pos htop]
  simp [hhashE, hneE, hph, hhh]

/-- The walk of the filter `"a/b/#"` over a topic `"a/b/"` followed by at least one
character other than `'#'`: the four leading characters pair up and the `'#'` then
fires on the mismatch with the remaining topic text. -/
theorem hashWalk (c : Char) (t : List Char) (hc : c ≠ '#') :
    matchRun ['a', '/', 'b', '/', '#'] ('a' :: '/' :: 'b' :: '/' :: c :: t) = some true := by
  have e0 : matchGo ['a', '/', 'b', '/', '#'] ('a' :: '/' :: 'b' :: '/' :: c :: t) 6 0 0 0 =
      matchGo ['a', '/', 'b', '/', '#'] ('a' :: '/' :: 'b' :: '/' :: c :: t) 5 1 1 1 :=
    matchGo_step_eq _ _ 5 0 0 0 (by decide) (by simp only [List.length_cons]; omega) rfl
      (by simp only [List.length_cons]; omega)
  have e1 : matchGo ['a', '/', 'b', '/', '#'] ('a' :: '/' :: 'b' :: '/' :: c :: t) 5 1 1 1 =
      matchGo ['a', '/', 'b', '/', '#'] ('a' :: '/' :: 'b' :: '/' :: c :: t) 4 2 2 2 :=
    matchGo_step_eq _ _ 4 1 1 1 (by decide) (by simp only [List.length_cons]; omega) rfl
      (by simp only [List.length_cons]; omega)
  have e2 : matchGo ['a', '/', 'b', '/', '#'] ('a' :: '/' :: 'b' :: '/' :: c :: t) 4 2 2 2 =
      matchGo ['a', '/', 'b', '/', '#'] ('a' :: '/' :: 'b' :: '/' :: c :: t) 3 3 3 3 :=
    matchGo_step_eq _ _ 3 2 2 2 (by decide) (by simp only [List.length_cons]; omega) rfl
      (by simp only [List.length_cons]; omega)
  have e3 : matchGo ['a', '/', 'b', '/', '#'] ('a' :: '/' :: 'b' :: '/' :: c :: t) 3 3 3 3 =
      matchGo ['a', '/', 'b', '/', '#'] ('a' :: '/' :: 'b' :: '/' :: c :: t) 2 4 4 4 :=
    matchGo_step_eq _ _ 2 3 3 3 (by decide) (by simp only [List.length_cons]; omega) rfl
      (by simp only [List.length_cons]; omega)
  have e4 : matchGo ['a', '/', 'b', '/', '#'] ('a' :: '/' :: 'b' :: '/' :: c :: t) 2 4 4 4 =
      some true :=
    matchGo_step_hash _ _ 1 4 4 4 (by decide) (by simp only [List.length_cons]; omega)
      (fun h => hc h.symm) rfl
  show matchGo ['a', '/', 'b', '/', '#'] ('a' :: '/' :: 'b' :: '/' :: c :: t) 6 0 0 0 = some true
  rw [e0, e1, e2, e3, e4]

/-- Claim C6 (counterexample): the claim states that a terminal `'#'` matches every
remaining sequence of topic levels, but for the single remaining empty level — topic
`"a/b/"`, a valid topic — `TopicMatcher::matches` panics (`topic[topic_p]` indexes
one past the end of the topic) instead of matching. -/
theorem hash_panics_on_trailing_empty_level :
    (∀ l ∈ [([] : List Char)], validTopicLevel l) ∧
    joinLevels ([['a'], ['b']] ++ [[]]) = ['a', '/', 'b', '/'] ∧
    TopicMatcher.matches ['a', '/', 'b', '/', '#']
      (publishMsg (joinLevels ([['a'], ['b']] ++ [[]]))) = none := by
  decide

/-- Claim C6 (amended): the terminal `'#'` of the filter `"a/b/#"` matches zero
remaining topic levels (topic `"a/b"`) and every remaining sequence of valid topic
levels except the single empty level (topic `"a/b/"`, on which the matcher panics
instead); in particular `"one/some/#"` matches `"one/some"`. -/
theorem hash_matches_remaining_levels :
    (∀ rest : List (List Char), (∀ l ∈ rest, validTopicLevel l) → rest ≠ [[]] →
      TopicMatcher.matches ['a', '/', 'b', '/', '#']
        (publishMsg (joinLevels ([['a'], ['b']] ++ rest))) = some true) ∧
    TopicMatcher.matches "one/some/#".toList (publishMsg "one/some".toList) = some true := by
  refine ⟨?_, by decide⟩
  intro rest hvalid hne
  cases rest with
  | nil => decide
  | cons l ls =>
    obtain ⟨c, t, hct, hc⟩ : ∃ c t, joinLevels (l :: ls) = c :: t ∧ c ≠ '#' := by
      cases l with
      | nil =>
        cases ls with
        | nil => exact absurd rfl hne
        | cons z zs => exact ⟨'/', joinLevels (z :: zs), rfl, by decide⟩
      | cons x xs =>
        have hmem : '#' ∉ (x :: xs) := (hvalid (x :: xs) (List.mem_cons_self _ _)).2.1
        have hx : x ≠ '#' := fun hxeq => hmem (hxeq ▸ List.mem_cons_self x xs)
        cases ls with
        | nil => exact ⟨x, xs, rfl, hx⟩
        | cons z zs => exact ⟨x, xs ++ '/' :: joinLevels (z :: zs), rfl, hx⟩
    show matchRun ['a', '/', 'b', '/', '#'] (joinLevels ([['a'], ['b']] ++ l :: ls)) = some true
    have hjoin : joinLevels ([['a'], ['b']] ++ l :: ls) =
        'a' :: '/' :: 'b' :: '/' :: joinLevels (l :: ls) := rfl
    rw [hjoin, hct]
    exact hashWalk c t hc

/-- Witness for C6 (amended): at the remaining levels `["c", "d"]` — the claim's own
example topic `"a/b/c/d"` — the hypotheses hold and the filter matches. -/
theorem hash_matches_remaining_levels_witness :
    (∀ l ∈ [['c'], ['d']], validTopicLevel l) ∧ ([['c'], ['d']] ≠ [([] : List Char)]) ∧
    TopicMatcher.matches ['a', '/', 'b', '/', '#']
      (publishMsg (joinLevels ([['a'], ['b']] ++ [['c'], ['d']]))) = some true :=
  ⟨by decide, by decide,
    hash_matches_remaining_levels.1 [['c'], ['d']] (by decide) (by decide)⟩

end Wiux
